import Mathlib

/-!
# Verification of the OceanGPT water-quality prediction pipeline

Shallow embedding of `model_predictor.py` (both variants present in the
repository: the resources variant with the mock model and averaged-score
classifier, and the top-level variant with `_quality_by_din`), together
with theorems settling the specification claims.

Numeric conventions: Python floats are modelled by elements of a linear
ordered field; concrete evaluations are carried out at `ℚ`, while the
feature normalizer (which uses the transcendental `log1p`) is embedded
over `ℝ`.  `random.uniform a b` is modelled by an explicit stream of
draws `ℕ → K`, with the interval bounds appearing as hypotheses where
the claim relies on them.  Python's `round(x, n)` is modelled by
rounding to the nearest multiple of `10^(-n)` (Python uses banker's
rounding at exact ties; no claim here depends on tie behaviour).
-/

section Classifier

variable {K : Type} [LinearOrderedField K]

/-- DIN scoring band of `determine_water_quality_level`
(`model_predictor.py`, resources variant, lines 195-205). -/
def dinScoreFn (din : K) : ℕ :=
  if din ≤ 5 / 100 then 5
  else if din ≤ 8 / 100 then 4
  else if din ≤ 12 / 100 then 3
  else if din ≤ 15 / 100 then 2
  else 1

/-- SRP scoring band of `determine_water_quality_level` (lines 207-217). -/
def srpScoreFn (srp : K) : ℕ :=
  if srp ≤ 1 / 100 then 5
  else if srp ≤ 2 / 100 then 4
  else if srp ≤ 3 / 100 then 3
  else if srp ≤ 4 / 100 then 2
  else 1

/-- pH scoring band of `determine_water_quality_level` (lines 219-229). -/
def phScoreFn (ph : K) : ℕ :=
  if 8 ≤ ph ∧ ph ≤ 82 / 10 then 5
  else if 79 / 10 ≤ ph ∧ ph ≤ 83 / 10 then 4
  else if 78 / 10 ≤ ph ∧ ph ≤ 84 / 10 then 3
  else if 77 / 10 ≤ ph ∧ ph ≤ 85 / 10 then 2
  else 1

/-- `determine_water_quality_level` (resources variant, lines 185-243):
scores each parameter on a 1-5 scale, averages the three scores, and
maps the mean to one of five grade strings. -/
def determine_water_quality_level (din srp ph : K) : String :=
  let total : K := ((dinScoreFn din + srpScoreFn srp + phScoreFn ph : ℕ) : K) / 3
  if total ≥ 45 / 10 then "优秀"
  else if total ≥ 35 / 10 then "良好"
  else if total ≥ 25 / 10 then "一般"
  else if total ≥ 15 / 10 then "较差"
  else "差"

/-- `_quality_by_din` (top-level `model_predictor.py`, lines 32-39):
four-grade classification of DIN alone, with strict `<` thresholds. -/
def _quality_by_din (din : K) : String :=
  if din < 2 / 100 then "EXCELLENT"
  else if din < 5 / 100 then "GOOD"
  else if din < 1 / 10 then "MODERATE"
  else "POOR"

end Classifier

section MockBackend

variable {K : Type} [LinearOrderedField K] [FloorRing K]

/-- Python's `round(x, n)`: rounding to the nearest multiple of
`10 ^ (-n)` (tie behaviour differs from Python's banker's rounding,
but no claim depends on ties). -/
def roundTo (n : ℕ) (x : K) : K :=
  (round (x * 10 ^ n) : ℤ) / 10 ^ n

/-- One row of `MockModel.predict` (`create_mock_model`, resources
variant, lines 26-49).  The unseeded `random.uniform` calls of the
default branch are modelled by an explicit stream `rand` of draws:
`rand 0`/`rand 1`/`rand 2` are the DIN/SRP/pH draws, whose documented
ranges `[0.01,0.15]`, `[0.005,0.05]`, `[7.8,8.3]` appear as hypotheses
in theorems that rely on them. -/
def mockPredictRow (rand : ℕ → K) (x : List K) : K × K × K :=
  if x.length ≥ 15 then
    let feature_sum := (x.take 5).sum
    (max (1 / 100) (min (15 / 100) (5 / 100 + feature_sum * (2 / 100))),
     max (5 / 1000) (min (5 / 100) (2 / 100 + feature_sum * (1 / 100))),
     max (78 / 10) (min (83 / 10) (8 + feature_sum * (1 / 10))))
  else
    (roundTo 4 (rand 0), roundTo 4 (rand 1), roundTo 2 (rand 2))

/-- `predict_water_quality` (resources variant, lines 148-183), happy
path: run the backend on the single-row batch and round the three
outputs to 4, 4 and 2 decimal places respectively.  (The `except`
branch, which draws unseeded random defaults, cannot trigger for the
pure backends modelled here.) -/
def predict_water_quality (backendRow : List K → K × K × K) (input : List K) : K × K × K :=
  let pred := backendRow input
  (roundTo 4 pred.1, roundTo 4 pred.2.1, roundTo 2 pred.2.2)

end MockBackend

section RoundLemmas

variable {K : Type} [LinearOrderedField K] [FloorRing K]

theorem round_monotone {x y : K} (h : x ≤ y) : round x ≤ round y := by
  rw [round_eq, round_eq]
  exact Int.floor_le_floor (by linarith)

theorem roundTo_le {n : ℕ} {x : K} {b : ℤ} (h : x ≤ (b : K) / 10 ^ n) :
    roundTo n x ≤ (b : K) / 10 ^ n := by
  have hpow : (0 : K) < 10 ^ n := by positivity
  have hx : x * 10 ^ n ≤ (b : K) := by
    calc x * 10 ^ n ≤ ((b : K) / 10 ^ n) * 10 ^ n := by
          exact mul_le_mul_of_nonneg_right h hpow.le
      _ = (b : K) := by field_simp
  have h1 : round (x * 10 ^ n) ≤ b := by
    have := round_monotone hx
    rwa [round_intCast] at this
  unfold roundTo
  exact div_le_div_of_nonneg_right (by exact_mod_cast h1) hpow.le

theorem le_roundTo {n : ℕ} {x : K} {a : ℤ} (h : (a : K) / 10 ^ n ≤ x) :
    (a : K) / 10 ^ n ≤ roundTo n x := by
  have hpow : (0 : K) < 10 ^ n := by positivity
  have hx : (a : K) ≤ x * 10 ^ n := by
    calc (a : K) = ((a : K) / 10 ^ n) * 10 ^ n := by field_simp
      _ ≤ x * 10 ^ n := mul_le_mul_of_nonneg_right h hpow.le
  have h1 : a ≤ round (x * 10 ^ n) := by
    have := round_monotone hx
    rwa [round_intCast] at this
  unfold roundTo
  exact div_le_div_of_nonneg_right (by exact_mod_cast h1) hpow.le

end RoundLemmas

section Normalizer

/-- Clamp to `[0,1]`: `max(0.0, min(1.0, feature))` (line 130). -/
noncomputable def clamp01 (x : ℝ) : ℝ := max 0 (min 1 x)

/-- `np.log1p` over the reals. -/
noncomputable def log1p (x : ℝ) : ℝ := Real.log (1 + x)

/-- Length adjustment of a band array to its nominal length `n`
(lines 101-111): right-pad with `0.0` if shorter, truncate if longer. -/
noncomputable def padTrunc (n : ℕ) (l : List ℝ) : List ℝ :=
  if l.length < n then l ++ List.replicate (n - l.length) 0 else l.take n

/-- Per-index normalization rule of the `for i, feature in
enumerate(features)` loop (lines 126-139): clamp spectral indices
(`i < 34`) to `[0,1]`, `log1p`-transform the covariates
(`i = 34, 35`) after clamping to `≥ 0`, rescale latitude (`i = 36`)
and longitude (otherwise). -/
noncomputable def normElem (i : ℕ) (f : ℝ) : ℝ :=
  if i < 34 then clamp01 f
  else if i < 36 then log1p (max 0 f)
  else if i = 36 then (f + 90) / 180
  else (f + 180) / 360

/-- The normalization loop, carrying the running index. -/
noncomputable def normalizeFrom (i : ℕ) : List ℝ → List ℝ
  | [] => []
  | f :: rest => normElem i f :: normalizeFrom (i + 1) rest

/-- `preprocess_input_data` (resources variant, lines 83-141), happy
path: pad/truncate the two band arrays to 13 and 21 entries, append the
two covariates and the coordinates, and normalize elementwise by
position. -/
noncomputable def preprocess_input_data (s2 s3 : List ℝ) (chl tsm lat lon : ℝ) : List ℝ :=
  normalizeFrom 0 (padTrunc 13 s2 ++ padTrunc 21 s3 ++ [chl, tsm, lat, lon])

/-- The `except` branch of `preprocess_input_data` (line 146): the
neutral default vector `[0.5] * 39`. -/
noncomputable def preprocess_fallback : List ℝ := List.replicate 39 (1 / 2)

theorem normalizeFrom_append (l₁ l₂ : List ℝ) (i : ℕ) :
    normalizeFrom i (l₁ ++ l₂) = normalizeFrom i l₁ ++ normalizeFrom (i + l₁.length) l₂ := by
  induction l₁ generalizing i with
  | nil => simp [normalizeFrom]
  | cons a t ih =>
      simp only [List.cons_append, normalizeFrom, List.append_eq, ih, List.length_cons,
        List.cons_append]
      have h1 : i + 1 + t.length = i + (t.length + 1) := by omega
      rw [h1]

theorem normalizeFrom_length (i : ℕ) (l : List ℝ) :
    (normalizeFrom i l).length = l.length := by
  induction l generalizing i with
  | nil => rfl
  | cons a t ih => simp [normalizeFrom, ih]

theorem normalizeFrom_spectral (l : List ℝ) (i : ℕ) (h : i + l.length ≤ 34) :
    normalizeFrom i l = l.map clamp01 := by
  induction l generalizing i with
  | nil => rfl
  | cons a t ih =>
      simp only [List.length_cons] at h
      simp only [normalizeFrom, List.map_cons]
      have h1 : normElem i a = clamp01 a := by
        simp [normElem, show i < 34 by omega]
      rw [h1, ih (i + 1) (by omega)]

theorem padTrunc_length (n : ℕ) (l : List ℝ) : (padTrunc n l).length = n := by
  unfold padTrunc
  split
  · simp; omega
  · simp; omega

/-- Characterization of the normalizer's output: clamped spectral
prefix, then the two log-transformed covariates, then the two affine
coordinate rescalings. -/
theorem preprocess_eq (s2 s3 : List ℝ) (chl tsm lat lon : ℝ) :
    preprocess_input_data s2 s3 chl tsm lat lon =
      (padTrunc 13 s2).map clamp01 ++ (padTrunc 21 s3).map clamp01 ++
        [log1p (max 0 chl), log1p (max 0 tsm), (lat + 90) / 180, (lon + 180) / 360] := by
  unfold preprocess_input_data
  rw [normalizeFrom_append (padTrunc 13 s2 ++ padTrunc 21 s3) _ 0,
    normalizeFrom_append (padTrunc 13 s2) (padTrunc 21 s3) 0]
  simp only [List.length_append, padTrunc_length, zero_add]
  rw [normalizeFrom_spectral (padTrunc 13 s2) 0 (by rw [padTrunc_length]; omega),
    normalizeFrom_spectral (padTrunc 21 s3) 13 (by rw [padTrunc_length])]
  norm_num [normalizeFrom, normElem]

theorem preprocess_length (s2 s3 : List ℝ) (chl tsm lat lon : ℝ) :
    (preprocess_input_data s2 s3 chl tsm lat lon).length = 38 := by
  rw [preprocess_eq]
  simp [padTrunc_length]

end Normalizer

section MainPipeline

/-- The request record extracted by `main` (resources variant, lines
276-282): `s2Data`/`s3Data` default to `[]` when absent, `chlNN`/`tsmNN`
may be null (Python `or 0.0`), coordinates default to `0.0`. -/
structure PredictRequest where
  s2Data : List ℝ
  s3Data : List ℝ
  chlNN : Option ℝ
  tsmNN : Option ℝ
  latitude : ℝ
  longitude : ℝ

/-- The response record printed by `main`: the success response (lines
308-315) or the error response (lines 322-332). -/
structure PredictResponse where
  success : Bool
  error : Option String
  din : ℝ
  srp : ℝ
  ph : ℝ
  qualityLevel : String
  confidence : ℝ

/-- `main` (resources variant, lines 249-335) after JSON parsing and
field extraction, parameterized by the backend row function (`load_model`
is an external-filesystem concern) and by the stream of random draws
(used for the `confidence` field).  The Python guard
`if not s2_data or not s3_data` raises `ValueError("Missing S2 or S3
spectral data")`, which the `except` arm converts into the error
response with zeroed predictions. -/
noncomputable def mainRun (backendRow : List ℝ → ℝ × ℝ × ℝ) (rand : ℕ → ℝ)
    (req : PredictRequest) : PredictResponse :=
  if req.s2Data.isEmpty || req.s3Data.isEmpty then
    { success := false, error := some "Missing S2 or S3 spectral data",
      din := 0, srp := 0, ph := 0, qualityLevel := "未知", confidence := 0 }
  else
    let processed := preprocess_input_data req.s2Data req.s3Data
      (req.chlNN.getD 0) (req.tsmNN.getD 0) req.latitude req.longitude
    let pred := predict_water_quality backendRow processed
    { success := true, error := none,
      din := pred.1, srp := pred.2.1, ph := pred.2.2,
      qualityLevel := determine_water_quality_level pred.1 pred.2.1 pred.2.2,
      confidence := roundTo 3 (rand 0) }

end MainPipeline

section SpatialEnsemble

/-- Modelled from the spec: no SpatialEnsembleEvaluator exists anywhere
under the repository source; §4.3 specifies a 3×3 grid of coordinate
offsets `{-δ, 0, +δ} × {-δ, 0, +δ}` with canonical δ = 0.003 around the
request's center, the center itself included. -/
noncomputable def gridDelta : ℝ := 3 / 1000

/-- Modelled from the spec: the nine grid points of §4.3, row by row. -/
noncomputable def gridPoints (lat lon : ℝ) : List (ℝ × ℝ) :=
  [(lat - gridDelta, lon - gridDelta), (lat - gridDelta, lon), (lat - gridDelta, lon + gridDelta),
   (lat, lon - gridDelta), (lat, lon), (lat, lon + gridDelta),
   (lat + gridDelta, lon - gridDelta), (lat + gridDelta, lon), (lat + gridDelta, lon + gridDelta)]

/-- Modelled from the spec (§4.3): per grid point, normalize a feature
vector reusing the same spectral/covariate inputs with the shifted
coordinate, and invoke the backend on it once. -/
noncomputable def pointPrediction (backend : List ℝ → ℝ × ℝ × ℝ) (s2 s3 : List ℝ)
    (chl tsm lat lon : ℝ) : ℝ × ℝ × ℝ :=
  backend (preprocess_input_data s2 s3 chl tsm lat lon)

/-- Modelled from the spec: `evaluateAveraged` of §4.3 — evaluate the
backend at each of the nine grid points and aggregate by elementwise
arithmetic mean, per output dimension independently. -/
noncomputable def evaluateAveraged (backend : List ℝ → ℝ × ℝ × ℝ) (s2 s3 : List ℝ)
    (chl tsm lat lon : ℝ) : ℝ × ℝ × ℝ :=
  let preds := (gridPoints lat lon).map fun q =>
    pointPrediction backend s2 s3 chl tsm q.1 q.2
  ((preds.map fun r => r.1).sum / 9,
   (preds.map fun r => r.2.1).sum / 9,
   (preds.map fun r => r.2.2).sum / 9)

end SpatialEnsemble

section ClaimC1

/-- C1, counterexample: on the input triple (DIN=0.01, SRP=0.005,
pH=6.9) the implemented classifier returns "良好" (the second-best of
its five grades), not the worst grade "差" — the averaged score
(5+5+1)/3 ≈ 3.67 clears the 3.5 threshold, so the out-of-range pH does
not dominate and the claimed worst-tier reduction does not hold. -/
theorem C1_counterexample :
    determine_water_quality_level ((1 : ℚ) / 100) (5 / 1000) (69 / 10) = "良好" ∧
      determine_water_quality_level ((1 : ℚ) / 100) (5 / 1000) (69 / 10) ≠ "差" := by
  have h : determine_water_quality_level ((1 : ℚ) / 100) (5 / 1000) (69 / 10) = "良好" := by
    norm_num [determine_water_quality_level, dinScoreFn, srpScoreFn, phScoreFn]
  exact ⟨h, by rw [h]; decide⟩

/-- C1, amended: `determine_water_quality_level` scores each parameter
on a 1-5 scale and averages the three scores rather than taking the
worst tier; for (DIN=0.01, SRP=0.005, pH=6.9) the scores are 5, 5, 1
and the averaged score 11/3 yields the second-best grade "良好". -/
theorem C1_amended_average :
    dinScoreFn ((1 : ℚ) / 100) = 5 ∧ srpScoreFn ((5 : ℚ) / 1000) = 5 ∧
      phScoreFn ((69 : ℚ) / 10) = 1 ∧
      determine_water_quality_level ((1 : ℚ) / 100) (5 / 1000) (69 / 10) = "良好" := by
  refine ⟨by norm_num [dinScoreFn], by norm_num [srpScoreFn], by norm_num [phScoreFn], ?_⟩
  norm_num [determine_water_quality_level, dinScoreFn, srpScoreFn, phScoreFn]

end ClaimC1

section ClaimC8

/-- C8, counterexample: DIN = 0.20 is NOT assigned the best tier by
either grader in the source: `determine_water_quality_level` scores it
1 (its worst band, since its inclusive bands end at 0.15), and
`_quality_by_din` returns "POOR" (its strict bands end at 0.1). -/
theorem C8_counterexample :
    dinScoreFn ((20 : ℚ) / 100) = 1 ∧ _quality_by_din ((20 : ℚ) / 100) = "POOR" := by
  constructor
  · norm_num [dinScoreFn]
  · norm_num [_quality_by_din]

/-- C8, amended: `determine_water_quality_level` does use inclusive
(≤) boundaries, so a value exactly on a boundary gets the better
(higher) score — its best-DIN boundary, however, is 0.05, not 0.20:
DIN ≤ 0.05 scores 5 and DIN > 0.05 scores at most 4, while DIN = 0.20
lies beyond the last band and scores 1 (worst).  `_quality_by_din`, by
contrast, uses strict (<) boundaries, so its boundary value 0.02 falls
into the worse tier "GOOD". -/
theorem C8_amended_boundaries :
    (∀ d : ℚ, d ≤ 5 / 100 → dinScoreFn d = 5) ∧
      (∀ d : ℚ, 5 / 100 < d → dinScoreFn d ≤ 4) ∧
      dinScoreFn ((20 : ℚ) / 100) = 1 ∧
      _quality_by_din ((2 : ℚ) / 100) = "GOOD" := by
  refine ⟨?_, ?_, by norm_num [dinScoreFn], by norm_num [_quality_by_din]⟩
  · intro d h
    unfold dinScoreFn
    rw [if_pos h]
  · intro d h
    unfold dinScoreFn
    rw [if_neg (not_le.2 h)]
    split_ifs <;> norm_num

/-- C8 witness: the amended boundary properties at DIN = 0.05 (on the
boundary, best score) and DIN = 0.06 (just above, score at most 4). -/
theorem C8_amended_boundaries_witness :
    ((5 : ℚ) / 100 ≤ 5 / 100 ∧ dinScoreFn ((5 : ℚ) / 100) = 5) ∧
      ((5 : ℚ) / 100 < 6 / 100 ∧ dinScoreFn ((6 : ℚ) / 100) ≤ 4) :=
  ⟨⟨by norm_num, C8_amended_boundaries.1 (5 / 100) (by norm_num)⟩,
   ⟨by norm_num, C8_amended_boundaries.2.1 (6 / 100) (by norm_num)⟩⟩

end ClaimC8

section ClaimC10

/-- C10: in the implemented averaged-score classifier, two good
parameters always outvote one bad one — whenever DIN ≤ 0.05 and
SRP ≤ 0.01, `determine_water_quality_level` returns one of the top two
grades for every pH value whatsoever, since the averaged score is at
least (5+5+1)/3 = 11/3 ≥ 3.5. -/
theorem C10_two_good_outvote (d s p : ℚ) (hd : d ≤ 5 / 100) (hs : s ≤ 1 / 100) :
    determine_water_quality_level d s p = "优秀" ∨
      determine_water_quality_level d s p = "良好" := by
  have h1 : dinScoreFn d = 5 := by unfold dinScoreFn; rw [if_pos hd]
  have h2 : srpScoreFn s = 5 := by unfold srpScoreFn; rw [if_pos hs]
  have hp1 : 1 ≤ phScoreFn p := by unfold phScoreFn; split_ifs <;> omega
  have hp5 : phScoreFn p ≤ 5 := by unfold phScoreFn; split_ifs <;> omega
  unfold determine_water_quality_level
  rw [h1, h2]
  set n := phScoreFn p with hn
  clear_value n
  interval_cases n <;> norm_num

/-- C10 witness: two best-tier nutrient values with a far-out pH of 0
still yield one of the top two grades. -/
theorem C10_two_good_outvote_witness :
    ((1 : ℚ) / 100 ≤ 5 / 100 ∧ (5 : ℚ) / 1000 ≤ 1 / 100) ∧
      (determine_water_quality_level ((1 : ℚ) / 100) (5 / 1000) 0 = "优秀" ∨
        determine_water_quality_level ((1 : ℚ) / 100) (5 / 1000) 0 = "良好") :=
  ⟨⟨by norm_num, by norm_num⟩,
   C10_two_good_outvote (1 / 100) (5 / 1000) 0 (by norm_num) (by norm_num)⟩

end ClaimC10

section ClaimC3

/-- Helper: exact evaluation of `roundTo` from floor bracketing. -/
theorem roundTo_eval {K : Type} [LinearOrderedField K] [FloorRing K] {n : ℕ} {x : K} {z : ℤ}
    (h1 : (z : K) ≤ x * 10 ^ n + 1 / 2) (h2 : x * 10 ^ n + 1 / 2 < z + 1) :
    roundTo n x = (z : K) / 10 ^ n := by
  unfold roundTo
  rw [round_eq, Int.floor_eq_iff.mpr ⟨h1, h2⟩]

/-- C3: the fallback backend is NOT deterministic on every feature
vector.  For a vector shorter than 15 elements (here `[]`) the mock
model's default branch returns rounded draws from the unseeded random
source, so two invocations whose pH draws are 8.0 and 7.9 — both
inside the documented `uniform(7.8, 8.3)` range — return different
triples. -/
theorem C3_random_divergence :
    mockPredictRow (fun i => if i = 2 then (8 : ℚ) else if i = 1 then 1 / 100 else 2 / 100) [] ≠
      mockPredictRow (fun i => if i = 2 then (79 : ℚ) / 10 else if i = 1 then 1 / 100 else 2 / 100)
        [] := by
  have e1 : roundTo 2 ((8 : ℚ)) = ((800 : ℤ) : ℚ) / 10 ^ 2 :=
    roundTo_eval (by norm_num) (by norm_num)
  have e2 : roundTo 2 ((79 : ℚ) / 10) = ((790 : ℤ) : ℚ) / 10 ^ 2 :=
    roundTo_eval (by norm_num) (by norm_num)
  intro h
  have h3 := congrArg (fun t : ℚ × ℚ × ℚ => t.2.2) h
  simp only [mockPredictRow, List.length_nil] at h3
  norm_num [e1, e2] at h3

end ClaimC3

section ClaimC6

/-- C6: every triple produced by the mock backend lies in the fixed
physical ranges DIN ∈ [0.01, 0.15], SRP ∈ [0.005, 0.05],
pH ∈ [7.8, 8.3] — on the signal-derived branch by clamping, and on the
default branch because rounding a `uniform(lo, hi)` draw to a precision
whose grid contains `lo` and `hi` stays inside `[lo, hi]`.  The
documented ranges of the three uniform draws are hypotheses. -/
theorem C6_mock_in_ranges (x : List ℚ) (rand : ℕ → ℚ)
    (hd1 : 1 / 100 ≤ rand 0) (hd2 : rand 0 ≤ 15 / 100)
    (hs1 : 5 / 1000 ≤ rand 1) (hs2 : rand 1 ≤ 5 / 100)
    (hp1 : 78 / 10 ≤ rand 2) (hp2 : rand 2 ≤ 83 / 10) :
    (1 / 100 ≤ (mockPredictRow rand x).1 ∧ (mockPredictRow rand x).1 ≤ 15 / 100) ∧
      (5 / 1000 ≤ (mockPredictRow rand x).2.1 ∧ (mockPredictRow rand x).2.1 ≤ 5 / 100) ∧
      (78 / 10 ≤ (mockPredictRow rand x).2.2 ∧ (mockPredictRow rand x).2.2 ≤ 83 / 10) := by
  by_cases hx : x.length ≥ 15
  · simp only [mockPredictRow, if_pos hx]
    refine ⟨⟨le_max_left _ _, max_le (by norm_num) (min_le_left _ _)⟩,
      ⟨le_max_left _ _, max_le (by norm_num) (min_le_left _ _)⟩,
      ⟨le_max_left _ _, max_le (by norm_num) (min_le_left _ _)⟩⟩
  · simp only [mockPredictRow, if_neg hx]
    have d1 : ((100 : ℤ) : ℚ) / 10 ^ 4 ≤ roundTo 4 (rand 0) :=
      le_roundTo (by push_cast; norm_num; linarith)
    have d2 : roundTo 4 (rand 0) ≤ ((1500 : ℤ) : ℚ) / 10 ^ 4 :=
      roundTo_le (by push_cast; norm_num; linarith)
    have s1 : ((50 : ℤ) : ℚ) / 10 ^ 4 ≤ roundTo 4 (rand 1) :=
      le_roundTo (by push_cast; norm_num; linarith)
    have s2 : roundTo 4 (rand 1) ≤ ((500 : ℤ) : ℚ) / 10 ^ 4 :=
      roundTo_le (by push_cast; norm_num; linarith)
    have p1 : ((780 : ℤ) : ℚ) / 10 ^ 2 ≤ roundTo 2 (rand 2) :=
      le_roundTo (by push_cast; norm_num; linarith)
    have p2 : roundTo 2 (rand 2) ≤ ((830 : ℤ) : ℚ) / 10 ^ 2 :=
      roundTo_le (by push_cast; norm_num; linarith)
    norm_num at d1 d2 s1 s2 p1 p2
    refine ⟨⟨?_, ?_⟩, ⟨?_, ?_⟩, ⟨?_, ?_⟩⟩ <;> linarith

/-- C6 witness: the default branch (empty feature vector) with
concrete in-range draws 0.02, 0.01, 8.0 produces a triple inside the
fixed physical ranges. -/
theorem C6_mock_in_ranges_witness :
    ((1 : ℚ) / 100 ≤ 2 / 100 ∧ (2 : ℚ) / 100 ≤ 15 / 100 ∧
        (5 : ℚ) / 1000 ≤ 1 / 100 ∧ (1 : ℚ) / 100 ≤ 5 / 100 ∧
        (78 : ℚ) / 10 ≤ 8 ∧ (8 : ℚ) ≤ 83 / 10) ∧
      ((1 / 100 ≤ (mockPredictRow (fun i => if i = 2 then (8 : ℚ) else if i = 1 then 1 / 100 else 2 / 100) []).1 ∧
          (mockPredictRow (fun i => if i = 2 then (8 : ℚ) else if i = 1 then 1 / 100 else 2 / 100) []).1 ≤ 15 / 100) ∧
        (5 / 1000 ≤ (mockPredictRow (fun i => if i = 2 then (8 : ℚ) else if i = 1 then 1 / 100 else 2 / 100) []).2.1 ∧
          (mockPredictRow (fun i => if i = 2 then (8 : ℚ) else if i = 1 then 1 / 100 else 2 / 100) []).2.1 ≤ 5 / 100) ∧
        (78 / 10 ≤ (mockPredictRow (fun i => if i = 2 then (8 : ℚ) else if i = 1 then 1 / 100 else 2 / 100) []).2.2 ∧
          (mockPredictRow (fun i => if i = 2 then (8 : ℚ) else if i = 1 then 1 / 100 else 2 / 100) []).2.2 ≤ 83 / 10)) :=
  ⟨⟨by norm_num, by norm_num, by norm_num, by norm_num, by norm_num, by norm_num⟩,
   C6_mock_in_ranges []
     (fun i => if i = 2 then (8 : ℚ) else if i = 1 then 1 / 100 else 2 / 100)
     (by norm_num) (by norm_num) (by norm_num) (by norm_num) (by norm_num) (by norm_num)⟩

end ClaimC6

section ListHelpers

theorem take_append_len (l₁ l₂ : List ℝ) : (l₁ ++ l₂).take l₁.length = l₁ := by
  induction l₁ with
  | nil => rfl
  | cons a t ih => simp [ih]

theorem drop_append_len (l₁ l₂ : List ℝ) : (l₁ ++ l₂).drop l₁.length = l₂ := by
  induction l₁ with
  | nil => rfl
  | cons a t ih => simp [ih]

/-- The last two elements of the normalized vector are the two affine
coordinate rescalings, for every input. -/
theorem preprocess_drop36 (s2 s3 : List ℝ) (chl tsm lat lon : ℝ) :
    (preprocess_input_data s2 s3 chl tsm lat lon).drop 36 =
      [(lat + 90) / 180, (lon + 180) / 360] := by
  rw [preprocess_eq]
  have h : (padTrunc 13 s2).map clamp01 ++ (padTrunc 21 s3).map clamp01 ++
      [log1p (max 0 chl), log1p (max 0 tsm), (lat + 90) / 180, (lon + 180) / 360] =
      ((padTrunc 13 s2).map clamp01 ++ (padTrunc 21 s3).map clamp01 ++
        [log1p (max 0 chl), log1p (max 0 tsm)]) ++ [(lat + 90) / 180, (lon + 180) / 360] := by
    simp
  rw [h]
  have hlen : ((padTrunc 13 s2).map clamp01 ++ (padTrunc 21 s3).map clamp01 ++
      [log1p (max 0 chl), log1p (max 0 tsm)]).length = 36 := by
    simp [padTrunc_length]
  rw [← hlen, drop_append_len]

/-- The elements at positions 34 and beyond of the normalized vector:
covariates then coordinates, for every input. -/
theorem preprocess_drop34 (s2 s3 : List ℝ) (chl tsm lat lon : ℝ) :
    (preprocess_input_data s2 s3 chl tsm lat lon).drop 34 =
      [log1p (max 0 chl), log1p (max 0 tsm), (lat + 90) / 180, (lon + 180) / 360] := by
  rw [preprocess_eq]
  have hlen : ((padTrunc 13 s2).map clamp01 ++ (padTrunc 21 s3).map clamp01).length = 34 := by
    simp [padTrunc_length]
  rw [← hlen, drop_append_len]

/-- The first 34 elements of the normalized vector: the clamped
spectral bands, for every input. -/
theorem preprocess_take34 (s2 s3 : List ℝ) (chl tsm lat lon : ℝ) :
    (preprocess_input_data s2 s3 chl tsm lat lon).take 34 =
      (padTrunc 13 s2).map clamp01 ++ (padTrunc 21 s3).map clamp01 := by
  rw [preprocess_eq]
  have hlen : ((padTrunc 13 s2).map clamp01 ++ (padTrunc 21 s3).map clamp01).length = 34 := by
    simp [padTrunc_length]
  rw [← hlen, take_append_len]

theorem clamp01_mem (y : ℝ) : 0 ≤ clamp01 y ∧ clamp01 y ≤ 1 :=
  ⟨le_max_left _ _, max_le (by norm_num) (min_le_left _ _)⟩

theorem log1p_max_nonneg (y : ℝ) : 0 ≤ log1p (max 0 y) := by
  unfold log1p
  apply Real.log_nonneg
  have := le_max_left (0 : ℝ) y
  linarith

end ListHelpers

section ClaimC4

/-- C4, counterexample: the normalizer's covariate elements are not
clamped to [0,1] — for the perfectly well-formed input with
chlorophyll 2.0 (and everything else zero), element 34 of the output
is `log1p(2) = log 3 > 1`. -/
theorem C4_counterexample :
    (preprocess_input_data [] [] 2 0 0 0).drop 34 =
      [Real.log 3, Real.log 1, 1 / 2, 1 / 2] ∧ 1 < Real.log 3 := by
  constructor
  · rw [preprocess_drop34]
    norm_num [log1p]
  · have h3 : Real.exp 1 < 3 := by
      have := Real.exp_one_lt_d9
      linarith
    calc (1 : ℝ) = Real.log (Real.exp 1) := (Real.log_exp 1).symm
      _ < Real.log 3 := Real.log_lt_log (Real.exp_pos 1) h3

/-- C4, amended: after normalization every element is nonnegative; the
34 spectral elements are clamped into [0,1] and, for valid coordinates,
the two coordinate elements also lie in [0,1]; the two covariate
elements are only log1p-transformed and are unbounded above
(they exceed 1 whenever the raw covariate exceeds e - 1, as the
counterexample shows). -/
theorem C4_amended_bounds (s2 s3 : List ℝ) (chl tsm lat lon : ℝ)
    (h1 : -90 ≤ lat) (h2 : lat ≤ 90) (h3 : -180 ≤ lon) (h4 : lon ≤ 180) :
    (∀ x ∈ (preprocess_input_data s2 s3 chl tsm lat lon).take 34, 0 ≤ x ∧ x ≤ 1) ∧
      (∀ x ∈ preprocess_input_data s2 s3 chl tsm lat lon, 0 ≤ x) ∧
      (∀ x ∈ (preprocess_input_data s2 s3 chl tsm lat lon).drop 36, 0 ≤ x ∧ x ≤ 1) := by
  refine ⟨?_, ?_, ?_⟩
  · intro x hx
    rw [preprocess_take34] at hx
    rcases List.mem_append.1 hx with hmem | hmem <;>
      · obtain ⟨y, _, rfl⟩ := List.mem_map.1 hmem
        exact clamp01_mem y
  · intro x hx
    rw [preprocess_eq] at hx
    rcases List.mem_append.1 hx with hmem | hmem
    · rcases List.mem_append.1 hmem with hm2 | hm2 <;>
        · obtain ⟨y, _, rfl⟩ := List.mem_map.1 hm2
          exact (clamp01_mem y).1
    · simp only [List.mem_cons, List.mem_singleton] at hmem
      rcases hmem with rfl | rfl | rfl | hmem
      · exact log1p_max_nonneg chl
      · exact log1p_max_nonneg tsm
      · linarith
      · simp only [List.mem_cons, List.not_mem_nil, or_false] at hmem
        subst hmem
        linarith
  · intro x hx
    rw [preprocess_drop36] at hx
    simp only [List.mem_cons, List.not_mem_nil, or_false] at hx
    rcases hx with rfl | rfl
    · constructor <;> linarith
    · constructor <;> linarith

/-- C4 witness: the amended bounds at the all-empty request centred at
the origin. -/
theorem C4_amended_bounds_witness :
    ((-90 : ℝ) ≤ 0 ∧ (0 : ℝ) ≤ 90 ∧ (-180 : ℝ) ≤ 0 ∧ (0 : ℝ) ≤ 180) ∧
      ((∀ x ∈ (preprocess_input_data [] [] 0 0 0 0).take 34, 0 ≤ x ∧ x ≤ 1) ∧
        (∀ x ∈ preprocess_input_data [] [] 0 0 0 0, 0 ≤ x) ∧
        (∀ x ∈ (preprocess_input_data [] [] 0 0 0 0).drop 36, 0 ≤ x ∧ x ≤ 1)) :=
  ⟨⟨by norm_num, by norm_num, by norm_num, by norm_num⟩,
   C4_amended_bounds [] [] 0 0 0 0 (by norm_num) (by norm_num) (by norm_num) (by norm_num)⟩

end ClaimC4

section ClaimC7

/-- C7: for every valid coordinate pair, the last two elements of the
normalized feature vector are exactly `(lat + 90) / 180` and
`(lon + 180) / 360`, and both lie in [0,1]. -/
theorem C7_coordinate_rescaling (s2 s3 : List ℝ) (chl tsm lat lon : ℝ)
    (h1 : -90 ≤ lat) (h2 : lat ≤ 90) (h3 : -180 ≤ lon) (h4 : lon ≤ 180) :
    (preprocess_input_data s2 s3 chl tsm lat lon).length = 38 ∧
      (preprocess_input_data s2 s3 chl tsm lat lon).drop 36 =
        [(lat + 90) / 180, (lon + 180) / 360] ∧
      0 ≤ (lat + 90) / 180 ∧ (lat + 90) / 180 ≤ 1 ∧
      0 ≤ (lon + 180) / 360 ∧ (lon + 180) / 360 ≤ 1 := by
  refine ⟨preprocess_length s2 s3 chl tsm lat lon, preprocess_drop36 s2 s3 chl tsm lat lon,
    ?_, ?_, ?_, ?_⟩ <;> linarith

/-- C7 witness: at latitude 45, longitude 90, the last two elements
are 0.75 and 0.75. -/
theorem C7_coordinate_rescaling_witness :
    ((-90 : ℝ) ≤ 45 ∧ (45 : ℝ) ≤ 90 ∧ (-180 : ℝ) ≤ 90 ∧ (90 : ℝ) ≤ 180) ∧
      ((preprocess_input_data [] [] 0 0 45 90).length = 38 ∧
        (preprocess_input_data [] [] 0 0 45 90).drop 36 =
          [((45 : ℝ) + 90) / 180, ((90 : ℝ) + 180) / 360] ∧
        0 ≤ ((45 : ℝ) + 90) / 180 ∧ ((45 : ℝ) + 90) / 180 ≤ 1 ∧
        0 ≤ ((90 : ℝ) + 180) / 360 ∧ ((90 : ℝ) + 180) / 360 ≤ 1) :=
  ⟨⟨by norm_num, by norm_num, by norm_num, by norm_num⟩,
   C7_coordinate_rescaling [] [] 0 0 45 90 (by norm_num) (by norm_num) (by norm_num)
     (by norm_num)⟩

end ClaimC7

section ClaimC9

/-- C9: the normal path of the normalizer always returns exactly 38
elements (13 + 21 spectral + 2 covariate + 2 coordinate), but the
`except` fallback returns the 39-element vector `[0.5] * 39` — the two
paths do NOT produce the same fixed length, contradicting the claim's
"single fixed canonical length" (the code's own comment "总共39个特征"
miscounts its 38 features). -/
theorem C9_length_mismatch :
    (∀ (s2 s3 : List ℝ) (chl tsm lat lon : ℝ),
        (preprocess_input_data s2 s3 chl tsm lat lon).length = 38) ∧
      preprocess_fallback.length = 39 ∧
      ∀ x ∈ preprocess_fallback, x = 1 / 2 := by
  refine ⟨preprocess_length, by simp [preprocess_fallback], ?_⟩
  intro x hx
  exact List.eq_of_mem_replicate hx

end ClaimC9

section ClaimC2

/-- C2, counterexample: a request with empty `s2Data` but NON-empty
`s3Data` still produces the hard missing-spectral-data error — the
guard `if not s2_data or not s3_data` fires when either array is
empty, so the error is not restricted to the both-empty case. -/
theorem C2_counterexample :
    (mainRun (fun _ => (0, 0, 0)) (fun _ => 0)
        { s2Data := [], s3Data := [1], chlNN := none, tsmNN := none,
          latitude := 0, longitude := 0 }).success = false ∧
      (mainRun (fun _ => (0, 0, 0)) (fun _ => 0)
          { s2Data := [], s3Data := [1], chlNN := none, tsmNN := none,
            latitude := 0, longitude := 0 }).error =
        some "Missing S2 or S3 spectral data" ∧
      ([(1 : ℝ)] : List ℝ) ≠ [] := by
  refine ⟨?_, ?_, by simp⟩ <;> simp [mainRun]

/-- C2, amended: the pipeline rejects with the missing-spectral-data
error exactly when AT LEAST ONE of `s2Data`, `s3Data` is empty (in
particular when both are); whenever both arrays are non-empty, no such
error result is produced (the run succeeds). -/
theorem C2_amended_validation (backendRow : List ℝ → ℝ × ℝ × ℝ) (rand : ℕ → ℝ)
    (req : PredictRequest) :
    ((mainRun backendRow rand req).success = false ∧
        (mainRun backendRow rand req).error = some "Missing S2 or S3 spectral data") ↔
      (req.s2Data = [] ∨ req.s3Data = []) := by
  rcases req with ⟨s2, s3, c, t, la, lo⟩
  cases s2 with
  | nil => simp [mainRun]
  | cons a s2t =>
      cases s3 with
      | nil => simp [mainRun]
      | cons b s3t => simp [mainRun]

end ClaimC2

section ClaimC5

/-- C5 (spec-modelled): the spatial-ensemble evaluation builds exactly
the nine grid points `{-δ, 0, +δ} × {-δ, 0, +δ}` (δ = 0.003) around
the center — the center itself among them — evaluates the backend once
per point, and returns per output dimension the exact arithmetic mean
of the nine per-grid-point backend outputs, for any (deterministic,
i.e. functional) backend. -/
theorem C5_nine_point_mean (backend : List ℝ → ℝ × ℝ × ℝ) (s2 s3 : List ℝ)
    (chl tsm lat lon : ℝ) :
    (gridPoints lat lon).length = 9 ∧
      (lat, lon) ∈ gridPoints lat lon ∧
      gridDelta = 3 / 1000 ∧
      evaluateAveraged backend s2 s3 chl tsm lat lon =
        (((pointPrediction backend s2 s3 chl tsm (lat - gridDelta) (lon - gridDelta)).1 +
            (pointPrediction backend s2 s3 chl tsm (lat - gridDelta) lon).1 +
            (pointPrediction backend s2 s3 chl tsm (lat - gridDelta) (lon + gridDelta)).1 +
            (pointPrediction backend s2 s3 chl tsm lat (lon - gridDelta)).1 +
            (pointPrediction backend s2 s3 chl tsm lat lon).1 +
            (pointPrediction backend s2 s3 chl tsm lat (lon + gridDelta)).1 +
            (pointPrediction backend s2 s3 chl tsm (lat + gridDelta) (lon - gridDelta)).1 +
            (pointPrediction backend s2 s3 chl tsm (lat + gridDelta) lon).1 +
            (pointPrediction backend s2 s3 chl tsm (lat + gridDelta) (lon + gridDelta)).1) / 9,
          ((pointPrediction backend s2 s3 chl tsm (lat - gridDelta) (lon - gridDelta)).2.1 +
            (pointPrediction backend s2 s3 chl tsm (lat - gridDelta) lon).2.1 +
            (pointPrediction backend s2 s3 chl tsm (lat - gridDelta) (lon + gridDelta)).2.1 +
            (pointPrediction backend s2 s3 chl tsm lat (lon - gridDelta)).2.1 +
            (pointPrediction backend s2 s3 chl tsm lat lon).2.1 +
            (pointPrediction backend s2 s3 chl tsm lat (lon + gridDelta)).2.1 +
            (pointPrediction backend s2 s3 chl tsm (lat + gridDelta) (lon - gridDelta)).2.1 +
            (pointPrediction backend s2 s3 chl tsm (lat + gridDelta) lon).2.1 +
            (pointPrediction backend s2 s3 chl tsm (lat + gridDelta) (lon + gridDelta)).2.1) / 9,
          ((pointPrediction backend s2 s3 chl tsm (lat - gridDelta) (lon - gridDelta)).2.2 +
            (pointPrediction backend s2 s3 chl tsm (lat - gridDelta) lon).2.2 +
            (pointPrediction backend s2 s3 chl tsm (lat - gridDelta) (lon + gridDelta)).2.2 +
            (pointPrediction backend s2 s3 chl tsm lat (lon - gridDelta)).2.2 +
            (pointPrediction backend s2 s3 chl tsm lat lon).2.2 +
            (pointPrediction backend s2 s3 chl tsm lat (lon + gridDelta)).2.2 +
            (pointPrediction backend s2 s3 chl tsm (lat + gridDelta) (lon - gridDelta)).2.2 +
            (pointPrediction backend s2 s3 chl tsm (lat + gridDelta) lon).2.2 +
            (pointPrediction backend s2 s3 chl tsm (lat + gridDelta) (lon + gridDelta)).2.2) / 9) := by
  refine ⟨by simp [gridPoints], by simp [gridPoints], rfl, ?_⟩
  simp only [evaluateAveraged, gridPoints, List.map_cons, List.map_nil, List.sum_cons,
    List.sum_nil]
  refine Prod.ext ?_ (Prod.ext ?_ ?_) <;> · dsimp only; ring

end ClaimC5
